/-
A shallow embedding of the Chikuya DX AI Scanner (`main.py`) and proofs of
the specified properties of its core logic: date normalization, the recency
filter, content extraction, relevance-reply parsing, the scan orchestrator
and the digest reporter.

Modelling conventions:
* Python timestamps (naive `datetime` values) are modelled as `Int` seconds;
  `timedelta(hours = h)` is `h * 3600` seconds.
* Library calls that may raise are modelled as `Option`/`Except` results; a
  raised-and-caught exception is `none`/`.error`.
* External collaborators (the Python standard library's `datetime.strptime`
  and `datetime` constructor, `feedparser._parse_date`, BeautifulSoup's
  `get_text`, the Gemini text-generation call and the SMTP send) are
  parameters of the embedding; the repository's own control flow around them
  is translated directly from the source.
* `print` calls are modelled as an accumulated list of `LogEvent`s.
-/
import Mathlib

namespace ChikuyaScanner

/-- Models Python `s.strip()`: remove whitespace from both ends.  (Python
also strips a few rarer whitespace code points that never occur in this
program's data.) -/
def pyStrip (s : String) : String :=
  String.mk (((s.data.dropWhile Char.isWhitespace).reverse.dropWhile
    Char.isWhitespace).reverse)

/-- Models Python `s.startswith(pat)`. -/
def pyStartsWith (s pat : String) : Bool := List.isPrefixOf pat.data s.data

/-- Models the Python membership test `c in s` for a single character. -/
def pyHasChar (s : String) (c : Char) : Bool := decide (c ∈ s.data)

/-- The numeric value of a list of decimal digits. -/
def digitsVal (l : List Char) : Nat :=
  l.foldl (fun n c => n * 10 + (c.toNat - 48)) 0

/-- Models Python `int(s)` on a string: optional surrounding whitespace, an
optional single sign, then one or more decimal digits; any other shape raises
`ValueError`, modelled as `none`.  (Python's underscore digit grouping and
non-ASCII digits never appear in this program's inputs and are not
modelled.) -/
def pyInt (s : String) : Option Int :=
  let sd : Int × List Char :=
    match (pyStrip s).data with
    | '-' :: rest => (-1, rest)
    | '+' :: rest => (1, rest)
    | t => (1, t)
  if sd.2 ≠ [] ∧ sd.2.all Char.isDigit then some (sd.1 * digitsVal sd.2)
  else none

/-- Helper for `pySplitChar`: the accumulator holds the current field in
reverse. -/
def splitCharAux (c : Char) : List Char → List Char → List (List Char)
  | [], acc => [acc.reverse]
  | x :: xs, acc =>
    if x = c then acc.reverse :: splitCharAux c xs []
    else splitCharAux c xs (x :: acc)

/-- Models Python `s.split(sep)` for a one-character separator (the program
only splits on `':'` and newline): all fields, empty fields kept,
`[""]` for the empty string. -/
def pySplitChar (c : Char) (s : String) : List String :=
  (splitCharAux c s.data []).map String.mk

/-- Everything after the first occurrence of a character, if it occurs. -/
def afterCharOpt (c : Char) : List Char → Option (List Char)
  | [] => none
  | x :: xs => if x = c then some xs else afterCharOpt c xs

/-- Models Python `line.split(':', 1)[1]`: everything after the first colon.
The source only evaluates this under an `':' in line` guard, so the
missing-colon arm is never reached. -/
def afterFirstColon (line : String) : String :=
  String.mk ((afterCharOpt ':' line.data).getD [])

/-- Models Python string slicing `s[:n]` (Python strings are sequences of
code points, as is the character list of a Lean string). -/
def takeChars (n : Nat) (s : String) : String := String.mk (s.data.take n)

/-- Helper for `pyIn`: does `pat` occur as a contiguous run? -/
def pyInAux (pat : List Char) : List Char → Bool
  | [] => pat.isEmpty
  | x :: xs => List.isPrefixOf pat (x :: xs) || pyInAux pat xs

/-- Models the Python substring test `pat in s`. -/
def pyIn (pat s : String) : Bool := pyInAux pat.data s.data

/-- The first six fields of a Python `time.struct_time`, the shape
`feedparser` hands back for parsed dates (`datetime(*t[:6])` consumes exactly
these six). -/
structure StructTime where
  year : Int
  month : Int
  day : Int
  hour : Int
  minute : Int
  second : Int
deriving DecidableEq

/-- The three shapes `parse_date` can receive (spec 4.1): a structured time
tuple, a string, or an already-invalid/missing value. -/
inductive DateInput where
  | structTime (t : StructTime)
  | str (s : String)
  | invalid
deriving DecidableEq

/-- External library collaborators used by the scanner, as call/response
functions:
* `strptime fmt s` models `datetime.strptime(s, fmt)` (a raised `ValueError`
  is `none`); the result is a timestamp in seconds.
* `fpParseDate` models `feedparser._parse_date` applied to the original
  input value (`none` for a falsy or raising result).
* `mkDatetime t` models the `datetime(*t[:6])` constructor, which validates
  field ranges and may raise (`none`).
* `stripHtml` models `BeautifulSoup(s, "html.parser").get_text()`. -/
structure PyLib where
  strptime : String → String → Option Int
  fpParseDate : DateInput → Option StructTime
  mkDatetime : StructTime → Option Int
  stripHtml : String → String

/-- The fixed format-priority list tried by `parse_date` (main.py lines
82-83), in source order. -/
def dateFormats : List String :=
  ["%a, %d %b %Y %H:%M:%S %Z", "%a, %d %b %Y %H:%M:%S %z",
   "%Y-%m-%dT%H:%M:%S", "%Y-%m-%dT%H:%M:%SZ"]

/-- `parse_date` (main.py lines 73-94).  A struct-time input is converted
directly (a raising constructor is caught by the enclosing `try` and yields
`None`); a string input tries the formats in order, first success winning,
then falls back to `feedparser._parse_date`; any other input goes straight
to the fallback.  Every failure path returns `none` — the function never
lets an exception escape. -/
def parse_date (lib : PyLib) : DateInput → Option Int
  | .structTime t => lib.mkDatetime t
  | .str s =>
    match dateFormats.findSome? (fun fmt => lib.strptime fmt s) with
    | some d => some d
    | none => (lib.fpParseDate (.str s)).bind lib.mkDatetime
  | .invalid => (lib.fpParseDate .invalid).bind lib.mkDatetime

/-- One element of a feed entry's `content` list; `.get('value', '')` is
modelled by an optional `value` field. -/
structure ContentItem where
  value : Option String := none
deriving DecidableEq

/-- A raw feed entry as `feedparser` supplies it: every field may be absent.
An absent key and a present-but-`None` value behave identically in the
scanner's guards, so both are `none`. -/
structure Entry where
  title : Option String := none
  summary : Option String := none
  description : Option String := none
  content : Option (List ContentItem) := none
  link : Option String := none
  published_parsed : Option StructTime := none
  published : Option String := none
deriving DecidableEq

/-- The timestamp-resolution logic of `is_recent_article` (main.py lines
99-108): prefer `published_parsed` (a failing `datetime` construction is
caught and leaves the date unset — the `elif` on `published` is NOT
reached in that case), else fall back to `parse_date` on `published`. -/
def article_date (lib : PyLib) (entry : Entry) : Option Int :=
  match entry.published_parsed with
  | some t => lib.mkDatetime t
  | none =>
    match entry.published with
    | some s => parse_date lib (.str s)
    | none => none

/-- `is_recent_article` (main.py lines 97-123): resolve a timestamp, fail
closed if none, then require `now - date ≤ hours` and `now - date ≥ 0`
(both bounds as in the source, `now` being `datetime.utcnow()`). -/
def is_recent_article (lib : PyLib) (now : Int) (entry : Entry)
    (hours : Int := 24) : Bool :=
  match article_date lib entry with
  | none => false
  | some d => decide (now - d ≤ hours * 3600 ∧ 0 ≤ now - d)

/-- The snippet source of main.py line 131: the `summary` field, or — via
Python's truthiness `or` — the `description` field when `summary` is absent
or empty. -/
def baseSnippet (entry : Entry) : String :=
  let s := entry.summary.getD ""
  if s ≠ "" then s else entry.description.getD ""

/-- The raw snippet after the content-list fallback of main.py lines
134-136 (snippet still empty and a non-empty `content` list present). -/
def rawSnippet (entry : Entry) : String :=
  if baseSnippet entry = "" then
    match entry.content with
    | some (c :: _) => c.value.getD ""
    | _ => baseSnippet entry
  else baseSnippet entry

/-- `get_article_content` (main.py lines 126-144): title defaults to
"No Title"; snippet precedence is `summary`, then `description`, then the
first element of a `content` list; a non-empty snippet is stripped of markup
and sliced to 500 characters. -/
def get_article_content (lib : PyLib) (entry : Entry) : String × String :=
  let title := entry.title.getD "No Title"
  let snippet := rawSnippet entry
  (title, if snippet ≠ "" then takeChars 500 (lib.stripHtml snippet) else snippet)

/-- The fixed instruction template of `rate_and_summarize` (main.py lines
149-155), byte for byte (the first two lines end in a space in the
source). -/
def system_prompt : String :=
  "You are a DX Manager at a Japanese food manufacturing company. \nRate this news item on a scale of 1-10 for relevance to factory automation, AppSheet development, or operational efficiency. \nIf relevance is > 7, write a one-sentence summary in Japanese and English.\n\nFormat your response as:\nRELEVANCE: [number 1-10]\nSUMMARY: [if relevance > 7, provide one sentence in Japanese and English, otherwise \"N/A\"]"

/-- The prompt f-string of main.py line 157. -/
def buildPrompt (title snippet : String) : String :=
  system_prompt ++ "\n\nTitle: " ++ title ++ "\n\nSnippet: " ++ snippet

/-- One iteration of the reply-parsing loop (main.py lines 167-174) over a
single line, updating the `(relevance, summary)` accumulator.  A score line
re-parses via `int(line.split(':')[1].strip())`; a failed parse (or an
impossible missing index) is swallowed by the bare `except`, leaving the
accumulator unchanged.  A summary line always contains a colon (it starts
with one), so the `else ""` arm of the source's conditional is dead but kept. -/
def respStep (acc : Int × String) (line : String) : Int × String :=
  if pyStartsWith line "RELEVANCE:" then
    match (pySplitChar ':' line)[1]? with
    | some part =>
      match pyInt (pyStrip part) with
      | some v => (v, acc.2)
      | none => acc
    | none => acc
  else if pyStartsWith line "SUMMARY:" then
    (acc.1, if pyHasChar line ':' then pyStrip (afterFirstColon line) else "")
  else acc

/-- The reply-parsing loop of `rate_and_summarize` over an already-split
line list, starting from `relevance = 0`, `summary = ""`. -/
def parseLines (lines : List String) : Int × String :=
  lines.foldl respStep (0, "")

/-- Parsing of a full service reply: split on newlines and run the loop
(main.py lines 164-174). -/
def parseResponse (text : String) : Int × String :=
  parseLines (pySplitChar '\n' text)

/-- The value a score-labelled line contributes, if any: used to state the
last-successful-parse-wins characterization of the loop. -/
def scoreOfLine (line : String) : Option Int :=
  if pyStartsWith line "RELEVANCE:" then
    match (pySplitChar ':' line)[1]? with
    | some part => pyInt (pyStrip part)
    | none => none
  else none

/-- The value a summary-labelled line contributes, if any (the `elif` makes
a score-labelled line never contribute a summary). -/
def summaryOfLine (line : String) : Option String :=
  if pyStartsWith line "RELEVANCE:" then none
  else if pyStartsWith line "SUMMARY:" then
    some (if pyHasChar line ':' then pyStrip (afterFirstColon line) else "")
  else none

/-- The log lines the scanner prints, as events. -/
inductive LogEvent where
  | scanningFeed (url : String)
  | foundEntries (url : String) (n : Nat)
  | mostRecent (url : String) (d : Int)
  | processing (title : String)
  | markRelevant (score : Int)
  | markNotRelevant (score : Int)
  | noRecent (url : String)
  | processedCount (url : String) (n : Nat)
  | feedError (url : String) (msg : String)
  | summaryLine (total : Nat) (relevant : Nat)
  | apiKeyError
  | genError (msg : String)
  | emailSkipNotConfigured
  | emailSkipNoArticles
  | emailSent (rcpt : String)
  | emailError (msg : String)
deriving DecidableEq

/-- `rate_and_summarize` (main.py lines 147-183): build the prompt, call the
generation collaborator, parse the reply; any failure of the call is caught,
logged (with a distinguishable message for API-key failures, via the
substring test of line 179) and turned into `(0, "")`. -/
def rate_and_summarize (gen : String → Except String String)
    (title snippet : String) : (Int × String) × List LogEvent :=
  match gen (buildPrompt title snippet) with
  | .ok text => (parseResponse text, [])
  | .error msg =>
    ((0, ""),
     [if pyIn "API key" msg || pyIn "API_KEY" msg then .apiKeyError
      else .genError msg])

/-- The record `article_info` built per processed entry (main.py lines
221-227). -/
structure Article where
  title : String
  link : String
  relevance : Int
  summary : String
  source : String
deriving DecidableEq

/-- The per-feed loop state of `scan_feeds` (main.py lines 212-234):
`feed_count`, the slices of `all_processed` and `relevant_articles`
contributed so far, and the log lines printed so far. -/
structure EntryAcc where
  cnt : Nat
  arts : List Article
  rel : List Article
  log : List LogEvent
deriving DecidableEq

/-- One iteration of the entry loop of `scan_feeds` (main.py lines 212-234):
a non-recent entry (168-hour window) is skipped; a recent one is counted,
extracted, scored, appended to `all_processed`, and appended to
`relevant_articles` exactly when its score exceeds 7. -/
def entryStep (lib : PyLib) (gen : String → Except String String) (now : Int)
    (url : String) (acc : EntryAcc) (entry : Entry) : EntryAcc :=
  if is_recent_article lib now entry 168 then
    let ts := get_article_content lib entry
    let link := entry.link.getD ""
    let ro := rate_and_summarize gen ts.1 ts.2
    let a : Article := ⟨ts.1, link, ro.1.1, ro.1.2, url⟩
    { cnt := acc.cnt + 1
      arts := acc.arts ++ [a]
      rel := if a.relevance > 7 then acc.rel ++ [a] else acc.rel
      log := acc.log ++ [.processing ts.1] ++ ro.2 ++
        [if a.relevance > 7 then .markRelevant a.relevance
         else .markNotRelevant a.relevance] }
  else acc

/-- The whole entry loop of one feed, from an empty accumulator. -/
def entryLoop (lib : PyLib) (gen : String → Except String String) (now : Int)
    (url : String) (entries : List Entry) : EntryAcc :=
  entries.foldl (entryStep lib gen now url) ⟨0, [], [], []⟩

/-- The most-recent-article debug block of `scan_feeds` (main.py lines
200-210): it examines the first three entries and constructs a `datetime`
from each truthy `published_parsed`; a raising construction escapes the
block (aborting the whole feed) — modelled by the outer `none`.  Otherwise
the inner option is the maximum date found, if any. -/
def mostRecentOf (lib : PyLib) (entries : List Entry) : Option (Option Int) :=
  (entries.take 3).foldl
    (fun acc e =>
      match acc with
      | none => none
      | some mr =>
        match e.published_parsed with
        | some t =>
          match lib.mkDatetime t with
          | some d =>
            some (some (match mr with
              | none => d
              | some m => if d > m then d else m))
          | none => none
        | none => some mr)
    (some none)

/-- What one feed contributes to the scan: its slices of `all_processed`
and `relevant_articles`, and its log lines. -/
structure FeedOut where
  arts : List Article
  rel : List Article
  log : List LogEvent
deriving DecidableEq

/-- Processing of a single feed inside `scan_feeds` (main.py lines
191-243).  A failing fetch is caught: the feed contributes no articles and
an error log line, and scanning continues.  A successful fetch logs the
total entry count, runs the debug block (whose own `datetime` exception is
caught only by the per-feed handler, yielding the same error outcome), runs
the entry loop, and logs the per-feed processed count (or a no-articles
notice when it is zero). -/
def processFeed (lib : PyLib) (gen : String → Except String String)
    (now : Int) (url : String) (res : Except String (List Entry)) : FeedOut :=
  match res with
  | .error msg => ⟨[], [], [.scanningFeed url, .feedError url msg]⟩
  | .ok entries =>
    let log0 : List LogEvent := [.scanningFeed url, .foundEntries url entries.length]
    match (if 0 < entries.length then mostRecentOf lib entries else some none) with
    | none => ⟨[], [], log0 ++ [.feedError url "invalid date in feed"]⟩
    | some mr =>
      let dlog : List LogEvent :=
        match mr with
        | some m => [.mostRecent url m]
        | none => []
      let acc := entryLoop lib gen now url entries
      let clog : List LogEvent :=
        if acc.cnt = 0 then [.noRecent url] else [.processedCount url acc.cnt]
      ⟨acc.arts, acc.rel, log0 ++ dlog ++ acc.log ++ clog⟩

/-- The final state of one scan: `all_processed`, `relevant_articles` and
the log. -/
structure ScanState where
  allProcessed : List Article
  relevant : List Article
  log : List LogEvent
deriving DecidableEq

/-- The feed loop of `scan_feeds` over an arbitrary source list, followed by
the summary log line of main.py line 246. -/
def scanFeedsList (lib : PyLib) (gen : String → Except String String)
    (fetch : String → Except String (List Entry)) (now : Int)
    (feeds : List String) : ScanState :=
  let s := feeds.foldl
    (fun s url =>
      let o := processFeed lib gen now url (fetch url)
      ⟨s.allProcessed ++ o.arts, s.relevant ++ o.rel, s.log ++ o.log⟩)
    (⟨[], [], []⟩ : ScanState)
  ⟨s.allProcessed, s.relevant,
   s.log ++ [.summaryLine s.allProcessed.length s.relevant.length]⟩

/-- The fixed feed list (main.py lines 22-26). -/
def RSS_FEEDS : List String :=
  ["https://workspaceupdates.googleblog.com/feeds/posts/default",
   "https://cloudblog.withgoogle.com/products/ai-machine-learning/rss/",
   "https://news.mit.edu/rss/topic/artificial-intelligence"]

/-- `scan_feeds` (main.py lines 186-248), over the fixed feed list. -/
def scan_feeds (lib : PyLib) (gen : String → Except String String)
    (fetch : String → Except String (List Entry)) (now : Int) : ScanState :=
  scanFeedsList lib gen fetch now RSS_FEEDS

/-- One list item of the HTML report (main.py lines 273-282). -/
def articleHtml (a : Article) : String :=
  "\n        <li>\n            <strong><a href=\"" ++ a.link ++ "\">" ++
  a.title ++ "</a></strong><br>\n            <em>Relevance Score: " ++
  toString a.relevance ++ "/10</em><br>\n            " ++ a.summary ++
  "<br>\n            <small>Source: " ++ a.source ++
  "</small>\n        </li>\n        <br>\n        "

/-- The HTML body of the digest (main.py lines 264-290). -/
def emailHtmlBody (articles : List Article) : String :=
  "\n    <html>\n    <head></head>\n    <body>\n        <h2>Chikuya DX AI Scanner - Weekly Report</h2>\n        <p>Found " ++
  toString articles.length ++
  " relevant AI news items from the last 7 days:</p>\n        <ul>\n    " ++
  String.join (articles.map articleHtml) ++
  "\n        </ul>\n        <p>---</p>\n        <p><small>This is an automated report from Chikuya DX AI Scanner</small></p>\n    </body>\n    </html>\n    "

/-- The outcome of `send_email_report`: whether a delivery was attempted,
whether an exception escaped (`.error`, re-raised at main.py line 310), and
the log lines printed. -/
structure EmailOut where
  attempted : Bool
  outcome : Except String Unit
  log : List LogEvent

/-- `send_email_report` (main.py lines 251-310): skip with a notice when
email is unconfigured or no qualifying articles exist; otherwise render the
HTML body and attempt a single SMTP submission (`smtp`), logging success, or
logging and re-raising the failure. -/
def send_email_report (emailEnabled : Bool) (smtp : String → Except String Unit)
    (emailTo : String) (articles : List Article) : EmailOut :=
  if emailEnabled = false then ⟨false, .ok (), [.emailSkipNotConfigured]⟩
  else if articles.isEmpty then ⟨false, .ok (), [.emailSkipNoArticles]⟩
  else
    match smtp (emailHtmlBody articles) with
    | .ok _ => ⟨true, .ok (), [.emailSent emailTo]⟩
    | .error msg => ⟨true, .error msg, [.emailError msg]⟩

/-- `main` (main.py lines 313-342) after startup: scan all feeds, then call
`send_email_report` only when qualifying articles exist; the only exception
that can escape (making the run exit non-zero) is a re-raised delivery
failure. -/
def mainRun (lib : PyLib) (gen : String → Except String String)
    (fetch : String → Except String (List Entry))
    (smtp : String → Except String Unit) (emailEnabled : Bool)
    (emailTo : String) (now : Int) : Except String ScanState :=
  let s := scan_feeds lib gen fetch now
  if s.relevant.isEmpty then .ok s
  else
    match (send_email_report emailEnabled smtp emailTo s.relevant).outcome with
    | .ok _ => .ok s
    | .error msg => .error msg

/-- A line contributing a score starts with the score label, hence the
`elif` never offers it a summary. -/
theorem summaryOfLine_none_of_score (line : String) (v : Int)
    (h : scoreOfLine line = some v) : summaryOfLine line = none := by
  unfold scoreOfLine at h
  unfold summaryOfLine
  cases hp : pyStartsWith line "RELEVANCE:" with
  | false => rw [hp] at h; simp at h
  | true => simp [hp]

/-- The loop body, restated through the per-line contribution functions. -/
theorem respStep_eq (acc : Int × String) (line : String) :
    respStep acc line =
      match scoreOfLine line with
      | some v => (v, acc.2)
      | none =>
        match summaryOfLine line with
        | some s => (acc.1, s)
        | none => acc := by
  unfold respStep scoreOfLine summaryOfLine
  cases h1 : pyStartsWith line "RELEVANCE:" with
  | true =>
    simp only [if_true]
    cases h2 : (pySplitChar ':' line)[1]? with
    | none => simp
    | some part => cases h3 : pyInt (pyStrip part) <;> simp
  | false =>
    simp only [Bool.false_eq_true, if_false]
    cases h4 : pyStartsWith line "SUMMARY:" <;> simp

/-- The parsing loop keeps, for each label, the value of the last line that
yields one: a fold of `respStep` computes the last score successfully
parsed (else the initial score) and the last summary seen (else the initial
summary). -/
theorem foldl_respStep_char (lines : List String) :
    ∀ r s, lines.foldl respStep (r, s) =
      ((lines.filterMap scoreOfLine).getLastD r,
       (lines.filterMap summaryOfLine).getLastD s) := by
  induction lines with
  | nil => intro r s; rfl
  | cons l ls ih =>
    intro r s
    rw [List.foldl_cons, respStep_eq]
    cases hsc : scoreOfLine l with
    | some v =>
      have hsm := summaryOfLine_none_of_score l v hsc
      simp only [List.filterMap_cons, hsc, hsm, List.getLastD_cons]
      exact ih v s
    | none =>
      cases hsm : summaryOfLine l with
      | some s2 =>
        simp only [List.filterMap_cons, hsc, hsm, List.getLastD_cons]
        exact ih r s2
      | none =>
        simp only [List.filterMap_cons, hsc, hsm]
        exact ih r s

/-- `parseLines` in closed form. -/
theorem parseLines_char (lines : List String) :
    parseLines lines =
      ((lines.filterMap scoreOfLine).getLastD 0,
       (lines.filterMap summaryOfLine).getLastD "") :=
  foldl_respStep_char lines 0 ""

/-- A line with neither label leaves the accumulator untouched. -/
theorem foldl_respStep_nolabel (lines : List String)
    (h : ∀ l ∈ lines, pyStartsWith l "RELEVANCE:" = false ∧
      pyStartsWith l "SUMMARY:" = false) :
    ∀ acc, lines.foldl respStep acc = acc := by
  induction lines with
  | nil => intro acc; rfl
  | cons l ls ih =>
    intro acc
    have h1 := (h l (by simp)).1
    have h2 := (h l (by simp)).2
    rw [List.foldl_cons, show respStep acc l = acc by simp [respStep, h1, h2]]
    exact ih (fun x hx => h x (by simp [hx])) acc

/-- Every character of a leading pattern occurs in the full list. -/
theorem mem_of_mem_isPrefixOf {x : Char} {p l : List Char} (hx : x ∈ p)
    (h : List.isPrefixOf p l = true) : x ∈ l := by
  induction p generalizing l with
  | nil => cases hx
  | cons a p ih =>
    cases l with
    | nil => simp [List.isPrefixOf] at h
    | cons b l =>
      simp only [List.isPrefixOf, Bool.and_eq_true, beq_iff_eq] at h
      rcases List.mem_cons.mp hx with rfl | hx2
      · exact h.1 ▸ List.mem_cons_self b l
      · exact List.mem_cons.2 (Or.inr (ih hx2 h.2))

/-- A line starting with the summary label contains a colon. -/
theorem pyHasChar_of_summary (line : String)
    (h : pyStartsWith line "SUMMARY:" = true) : pyHasChar line ':' = true := by
  unfold pyStartsWith at h
  unfold pyHasChar
  exact decide_eq_true (mem_of_mem_isPrefixOf (by decide) h)

/-- C3: the scorer's parser scans the reply line by line: a score-labelled
line yields the score via integer parse (a single such line defaulting the
score to 0 when the parse fails), a summary-labelled line yields everything
after the first separator (stripped), and the claim's three concrete
replies parse as stated; a reply none of whose lines carries a label yields
score 0 and summary "". -/
theorem rate_parse_spec :
    parseResponse "RELEVANCE: 9\nSUMMARY: text" = (9, "text") ∧
    parseResponse "RELEVANCE: high" = (0, "") ∧
    (∀ line v, scoreOfLine line = some v → parseLines [line] = (v, "")) ∧
    (∀ line, pyStartsWith line "RELEVANCE:" = true → scoreOfLine line = none →
      parseLines [line] = (0, "")) ∧
    (∀ line, pyStartsWith line "RELEVANCE:" = false →
      pyStartsWith line "SUMMARY:" = true →
      parseLines [line] = (0, pyStrip (afterFirstColon line))) ∧
    (∀ text, (∀ l ∈ pySplitChar '\n' text,
        pyStartsWith l "RELEVANCE:" = false ∧ pyStartsWith l "SUMMARY:" = false) →
      parseResponse text = (0, "")) := by
  refine ⟨by decide, by decide, ?_, ?_, ?_, ?_⟩
  · intro line v h
    unfold parseLines
    rw [List.foldl_cons, respStep_eq, h]
    rfl
  · intro line h1 h2
    unfold parseLines
    rw [List.foldl_cons, respStep_eq, h2]
    have hsm : summaryOfLine line = none := by
      unfold summaryOfLine
      simp [h1]
    rw [hsm]
    rfl
  · intro line h1 h2
    unfold parseLines
    have hsc : scoreOfLine line = none := by unfold scoreOfLine; simp [h1]
    have hsm : summaryOfLine line = some (pyStrip (afterFirstColon line)) := by
      unfold summaryOfLine
      rw [h1, h2]
      simp [pyHasChar_of_summary line h2]
    rw [List.foldl_cons, respStep_eq, hsc, hsm]
    rfl
  · intro text h
    unfold parseResponse
    exact foldl_respStep_nolabel (pySplitChar '\n' text) h (0, "")

/-- Witness for C3: the general no-label clause applied at a concrete
reply. -/
theorem rate_parse_spec_witness : parseResponse "nothing labelled\nhere" = (0, "") :=
  rate_parse_spec.2.2.2.2.2 "nothing labelled\nhere" (by decide)

/-- C10: over any sequence of reply lines, the parsing loop keeps the value
of the last score-labelled line that parses (an unparsable later score line
does not reset an earlier value) and the value of the last summary-labelled
line; concretely demonstrated on a reply with duplicate labels. -/
theorem last_label_wins_spec :
    (∀ lines : List String, parseLines lines =
      ((lines.filterMap scoreOfLine).getLastD 0,
       (lines.filterMap summaryOfLine).getLastD "")) ∧
    parseResponse "RELEVANCE: 9\nRELEVANCE: high\nSUMMARY: a\nSUMMARY: b" = (9, "b") :=
  ⟨parseLines_char, by decide⟩

/-- Witness for C10: the closed form applied at a concrete line list. -/
theorem last_label_wins_spec_witness :
    parseLines ["RELEVANCE: 2", "RELEVANCE: 5"] = (5, "") :=
  (last_label_wins_spec.1 ["RELEVANCE: 2", "RELEVANCE: 5"]).trans (by decide)

/-- C4 counterexample: the code does not clamp the parsed score, so a reply
whose score line carries 99 makes the scorer return 99, outside 0..10. -/
theorem relevance_range_counterexample :
    (rate_and_summarize (fun _ => .ok "RELEVANCE: 99") "Title" "Snippet").1.1 = 99 ∧
    ¬ ((rate_and_summarize (fun _ => .ok "RELEVANCE: 99") "Title" "Snippet").1.1 ≤ 10) := by
  constructor
  · rfl
  · intro h
    have : (99 : Int) ≤ 10 := h
    omega

/-- C4 amended: the scorer's relevance result is 0 whenever the service
call fails; when the call succeeds it is the last successfully parsed
score-line value (0 when none parses), so it lies in 0..10 exactly when the
reply's parsed score values do — the code performs no clamping of its own. -/
theorem relevance_range_amended (gen : String → Except String String)
    (title snippet : String) :
    (∀ msg, gen (buildPrompt title snippet) = .error msg →
      (rate_and_summarize gen title snippet).1 = (0, "")) ∧
    (∀ reply, gen (buildPrompt title snippet) = .ok reply →
      (∀ l ∈ pySplitChar '\n' reply, ∀ v, scoreOfLine l = some v →
        0 ≤ v ∧ v ≤ 10) →
      0 ≤ (rate_and_summarize gen title snippet).1.1 ∧
        (rate_and_summarize gen title snippet).1.1 ≤ 10) := by
  constructor
  · intro msg h
    unfold rate_and_summarize
    rw [h]
  · intro reply h hb
    unfold rate_and_summarize
    rw [h]
    simp only
    have hc := congrArg Prod.fst (parseLines_char (pySplitChar '\n' reply))
    show 0 ≤ (parseResponse reply).1 ∧ (parseResponse reply).1 ≤ 10
    unfold parseResponse
    rw [hc, List.getLastD_eq_getLast?]
    cases hL : ((pySplitChar '\n' reply).filterMap scoreOfLine).getLast? with
    | none => simp
    | some v =>
      have hv := List.mem_of_getLast?_eq_some hL
      obtain ⟨l, hl, hs⟩ := List.mem_filterMap.mp hv
      simpa using hb l hl v hs

/-- Witness for C4's amended theorem: a reply whose only score line parses
to 9 keeps the result in range. -/
theorem relevance_range_amended_witness :
    0 ≤ (rate_and_summarize (fun _ => .ok "RELEVANCE: 9") "T" "S").1.1 ∧
      (rate_and_summarize (fun _ => .ok "RELEVANCE: 9") "T" "S").1.1 ≤ 10 :=
  (relevance_range_amended (fun _ => .ok "RELEVANCE: 9") "T" "S").2
    "RELEVANCE: 9" rfl (by decide)

/-- C1: the recency filter returns true iff the entry's resolution logic
yields a timestamp that is not in the future (relative to the UTC instant
`now`) and at most `hours` hours old; an entry with no resolvable timestamp
and a future-dated entry both yield false. -/
theorem is_recent_article_spec (lib : PyLib) (now hours : Int) (entry : Entry) :
    (is_recent_article lib now entry hours = true ↔
      ∃ d, article_date lib entry = some d ∧
        0 ≤ now - d ∧ now - d ≤ hours * 3600) ∧
    (article_date lib entry = none →
      is_recent_article lib now entry hours = false) ∧
    (∀ d, article_date lib entry = some d → now < d →
      is_recent_article lib now entry hours = false) := by
  unfold is_recent_article
  cases h : article_date lib entry with
  | none => simp
  | some d =>
    refine ⟨?_, by simp, ?_⟩
    · simp only [decide_eq_true_eq, Option.some.injEq]
      constructor
      · intro hp
        exact ⟨d, rfl, hp.2, hp.1⟩
      · rintro ⟨d2, rfl, h1, h2⟩
        exact ⟨h2, h1⟩
    · intro d2 hd2 hf
      injection hd2 with hd2
      subst hd2
      simp only [decide_eq_false_iff_not]
      intro hp
      omega

/-- Witness for C1: a one-hour-old article passes a 24-hour window, via the
characterization. -/
theorem is_recent_article_spec_witness :
    is_recent_article
        (PyLib.mk (fun _ _ => none) (fun _ => none) (fun _ => some 0) id)
        3600 (Entry.mk none none none none none (some (StructTime.mk 2025 1 1 0 0 0)) none)
        24 = true :=
  (is_recent_article_spec
      (PyLib.mk (fun _ _ => none) (fun _ => none) (fun _ => some 0) id)
      3600 24
      (Entry.mk none none none none none (some (StructTime.mk 2025 1 1 0 0 0)) none)).1.mpr
    ⟨0, rfl, by norm_num, by norm_num⟩

/-- A prefix of failing candidates does not affect a first-success search. -/
theorem findSome?_append_none {α β : Type} (f : α → Option β) (l1 l2 : List α)
    (h : ∀ x ∈ l1, f x = none) :
    (l1 ++ l2).findSome? f = l2.findSome? f := by
  induction l1 with
  | nil => rfl
  | cons a l ih =>
    have ha := h a (by simp)
    simp only [List.cons_append, List.findSome?_cons, ha]
    exact ih (fun x hx => h x (by simp [hx]))

/-- C7: the date normalizer is a total function into an optional timestamp
(no input can raise): a structured tuple is converted directly, a string
tries the four formats in their fixed priority order with the first
successful parse winning, a string none of whose formats parse falls back to
the external parser (whose failure yields the unparseable result `none`),
and any other input goes straight to the fallback. -/
theorem parse_date_spec (lib : PyLib) :
    (∀ t, parse_date lib (.structTime t) = lib.mkDatetime t) ∧
    (∀ s pre fmt post d, dateFormats = pre ++ fmt :: post →
      (∀ g ∈ pre, lib.strptime g s = none) → lib.strptime fmt s = some d →
      parse_date lib (.str s) = some d) ∧
    (∀ s, (∀ f ∈ dateFormats, lib.strptime f s = none) →
      parse_date lib (.str s) = (lib.fpParseDate (.str s)).bind lib.mkDatetime) ∧
    parse_date lib .invalid = (lib.fpParseDate .invalid).bind lib.mkDatetime := by
  refine ⟨fun t => rfl, ?_, ?_, rfl⟩
  · intro s pre fmt post d hsplit hpre hfmt
    have hfind : dateFormats.findSome? (fun f => lib.strptime f s) = some d := by
      rw [hsplit, findSome?_append_none _ pre _ hpre]
      simp [List.findSome?_cons, hfmt]
    simp only [parse_date]
    rw [hfind]
  · intro s h
    have hfind : dateFormats.findSome? (fun f => lib.strptime f s) = none :=
      List.findSome?_eq_none_iff.mpr h
    simp only [parse_date]
    rw [hfind]

/-- A collaborator stub for the C7 witness: only the third format parses. -/
def libFmt : PyLib :=
  PyLib.mk (fun fmt _ => if fmt = "%Y-%m-%dT%H:%M:%S" then some 42 else none)
    (fun _ => none) (fun _ => none) id

/-- Witness for C7: the first two formats fail, the third succeeds and
wins. -/
theorem parse_date_spec_witness :
    parse_date libFmt (.str "2024-01-01T00:00:00") = some 42 :=
  (parse_date_spec libFmt).2.1 "2024-01-01T00:00:00"
    ["%a, %d %b %Y %H:%M:%S %Z", "%a, %d %b %Y %H:%M:%S %z"]
    "%Y-%m-%dT%H:%M:%S" ["%Y-%m-%dT%H:%M:%SZ"] 42 rfl (by decide) (by decide)

/-- C9: the extractor's title defaults to "No Title" exactly when the field
is absent; the snippet is chosen by the fixed precedence (summary, then
description, then the head of a non-empty content list, else empty), and a
non-empty snippet is the markup-stripped text sliced to 500 characters, so
the returned snippet never exceeds 500 characters. -/
theorem get_article_content_spec (lib : PyLib) (entry : Entry) :
    (get_article_content lib entry).1 = entry.title.getD "No Title" ∧
    (get_article_content lib entry).2.length ≤ 500 ∧
    (entry.summary.getD "" ≠ "" → rawSnippet entry = entry.summary.getD "") ∧
    (entry.summary.getD "" = "" → entry.description.getD "" ≠ "" →
      rawSnippet entry = entry.description.getD "") ∧
    (baseSnippet entry = "" → ∀ c rest, entry.content = some (c :: rest) →
      rawSnippet entry = c.value.getD "") ∧
    (baseSnippet entry = "" → entry.content = none ∨ entry.content = some [] →
      rawSnippet entry = "") ∧
    (rawSnippet entry ≠ "" → (get_article_content lib entry).2
      = takeChars 500 (lib.stripHtml (rawSnippet entry))) := by
  refine ⟨rfl, ?_, ?_, ?_, ?_, ?_, ?_⟩
  · unfold get_article_content
    simp only
    by_cases h : rawSnippet entry = ""
    · simp [h]
    · rw [if_pos h]
      show ((lib.stripHtml (rawSnippet entry)).data.take 500).length ≤ 500
      rw [List.length_take]
      exact Nat.min_le_left _ _
  · intro hs
    unfold rawSnippet baseSnippet
    simp [hs]
  · intro hs hd
    unfold rawSnippet baseSnippet
    simp [hs, hd]
  · intro hb c rest hc
    unfold rawSnippet
    rw [hc, if_pos hb]
  · intro hb hc
    unfold rawSnippet
    rcases hc with h | h <;> rw [h, if_pos hb] <;> exact hb
  · intro h
    unfold get_article_content
    simp [h]

/-- Witness for C9: a pure-markup summary is stripped and returned. -/
theorem get_article_content_spec_witness :
    (get_article_content
        (PyLib.mk (fun _ _ => none) (fun _ => none) (fun _ => none)
          (fun _ => "hello"))
        (Entry.mk none (some "<b>hello</b>") none none none none none)).2
      = "hello" :=
  ((get_article_content_spec
      (PyLib.mk (fun _ _ => none) (fun _ => none) (fun _ => none)
        (fun _ => "hello"))
      (Entry.mk none (some "<b>hello</b>") none none none none none)).2.2.2.2.2.2
    (by decide)).trans (by decide)

/-- The scored article a recent entry contributes to the result lists. -/
def mkArticle (lib : PyLib) (gen : String → Except String String)
    (url : String) (entry : Entry) : Article :=
  let ts := get_article_content lib entry
  let ro := rate_and_summarize gen ts.1 ts.2
  ⟨ts.1, entry.link.getD "", ro.1.1, ro.1.2, url⟩

/-- The log lines one recent entry produces. -/
def entryLogOf (lib : PyLib) (gen : String → Except String String)
    (entry : Entry) : List LogEvent :=
  let ts := get_article_content lib entry
  let ro := rate_and_summarize gen ts.1 ts.2
  [.processing ts.1] ++ ro.2 ++
    [if ro.1.1 > 7 then .markRelevant ro.1.1 else .markNotRelevant ro.1.1]

/-- The recency-filtered entries of one feed (the 168-hour window used by
`scan_feeds`). -/
def recentOnly (lib : PyLib) (now : Int) (entries : List Entry) : List Entry :=
  entries.filter (fun e => is_recent_article lib now e 168)

/-- The qualification predicate of main.py line 230. -/
def qualifies (a : Article) : Bool := decide (a.relevance > 7)

/-- The loop body restated through the helper definitions. -/
theorem entryStep_char (lib : PyLib) (gen : String → Except String String)
    (now : Int) (url : String) (acc : EntryAcc) (entry : Entry) :
    entryStep lib gen now url acc entry =
      if is_recent_article lib now entry 168 then
        ⟨acc.cnt + 1, acc.arts ++ [mkArticle lib gen url entry],
         if qualifies (mkArticle lib gen url entry) then
           acc.rel ++ [mkArticle lib gen url entry] else acc.rel,
         acc.log ++ entryLogOf lib gen entry⟩
      else acc := by
  by_cases h : is_recent_article lib now entry 168 = true
  · rw [if_pos h]
    unfold entryStep
    rw [if_pos h]
    unfold mkArticle entryLogOf qualifies
    simp only [decide_eq_true_eq, List.append_assoc]
  · rw [if_neg h]
    unfold entryStep
    rw [if_neg h]

/-- Closed form of the per-feed entry loop: the count is the number of
recent entries, `all_processed` gains every recent entry's article in
order, and `relevant_articles` gains exactly those passing the threshold. -/
theorem foldl_entryStep_char (lib : PyLib) (gen : String → Except String String)
    (now : Int) (url : String) (entries : List Entry) :
    ∀ acc : EntryAcc,
      entries.foldl (entryStep lib gen now url) acc =
        ⟨acc.cnt + (recentOnly lib now entries).length,
         acc.arts ++ (recentOnly lib now entries).map (mkArticle lib gen url),
         acc.rel ++
           ((recentOnly lib now entries).map (mkArticle lib gen url)).filter qualifies,
         acc.log ++
           ((recentOnly lib now entries).map (entryLogOf lib gen)).flatten⟩ := by
  induction entries with
  | nil => intro acc; simp [recentOnly]
  | cons e es ih =>
    intro acc
    rw [List.foldl_cons, entryStep_char]
    by_cases h : is_recent_article lib now e 168 = true
    · rw [if_pos h, ih]
      have hr : recentOnly lib now (e :: es) = e :: recentOnly lib now es := by
        unfold recentOnly
        rw [List.filter_cons, if_pos (by simp [h])]
      rw [hr]
      simp only [EntryAcc.mk.injEq, List.map_cons, List.filter_cons,
        List.flatten_cons, List.length_cons]
      refine ⟨by omega, by simp, ?_, by simp⟩
      by_cases hq : qualifies (mkArticle lib gen url e) = true
      · rw [if_pos hq, if_pos hq]
        simp
      · rw [if_neg hq, if_neg hq]
    · rw [if_neg h, ih]
      have hr : recentOnly lib now (e :: es) = recentOnly lib now es := by
        unfold recentOnly
        rw [List.filter_cons, if_neg (by simp [h])]
      rw [hr]

/-- What the scan gathers from one configured source through its fetch. -/
def feedOutOf (lib : PyLib) (gen : String → Except String String)
    (fetch : String → Except String (List Entry)) (now : Int)
    (url : String) : FeedOut :=
  processFeed lib gen now url (fetch url)

/-- Closed form of the feed loop: each source appends its contribution. -/
theorem foldl_scan_char (lib : PyLib) (gen : String → Except String String)
    (fetch : String → Except String (List Entry)) (now : Int)
    (feeds : List String) :
    ∀ s : ScanState,
      feeds.foldl
        (fun s url =>
          let o := processFeed lib gen now url (fetch url)
          (⟨s.allProcessed ++ o.arts, s.relevant ++ o.rel, s.log ++ o.log⟩ : ScanState)) s =
      ⟨s.allProcessed ++ (feeds.map (fun u => (feedOutOf lib gen fetch now u).arts)).flatten,
       s.relevant ++ (feeds.map (fun u => (feedOutOf lib gen fetch now u).rel)).flatten,
       s.log ++ (feeds.map (fun u => (feedOutOf lib gen fetch now u).log)).flatten⟩ := by
  induction feeds with
  | nil => intro s; simp
  | cons u us ih =>
    intro s
    rw [List.foldl_cons, ih]
    simp [feedOutOf, List.append_assoc]

/-- Closed form of `scanFeedsList`. -/
theorem scanFeedsList_char (lib : PyLib) (gen : String → Except String String)
    (fetch : String → Except String (List Entry)) (now : Int)
    (feeds : List String) :
    scanFeedsList lib gen fetch now feeds =
      ⟨(feeds.map (fun u => (feedOutOf lib gen fetch now u).arts)).flatten,
       (feeds.map (fun u => (feedOutOf lib gen fetch now u).rel)).flatten,
       (feeds.map (fun u => (feedOutOf lib gen fetch now u).log)).flatten ++
         [.summaryLine
           (feeds.map (fun u => (feedOutOf lib gen fetch now u).arts)).flatten.length
           (feeds.map (fun u => (feedOutOf lib gen fetch now u).rel)).flatten.length]⟩ := by
  unfold scanFeedsList
  rw [foldl_scan_char]
  simp only [List.nil_append]

/-- Each feed's qualifying slice is the threshold filter of its processed
slice. -/
theorem processFeed_rel_filter (lib : PyLib) (gen : String → Except String String)
    (now : Int) (url : String) (res : Except String (List Entry)) :
    (processFeed lib gen now url res).rel
      = (processFeed lib gen now url res).arts.filter qualifies := by
  cases res with
  | error msg => simp [processFeed]
  | ok entries =>
    simp only [processFeed]
    cases hmr : (if 0 < entries.length then mostRecentOf lib entries else some none) with
    | none => rfl
    | some mr =>
      simp only
      unfold entryLoop
      rw [foldl_entryStep_char]
      simp

/-- Filtering distributes over a flattened list of lists. -/
theorem flatten_filter {α : Type} (p : α → Bool) (L : List (List α)) :
    (L.map (fun l => l.filter p)).flatten = L.flatten.filter p := by
  induction L with
  | nil => rfl
  | cons l ls ih =>
    rw [List.map_cons, List.flatten_cons, ih, List.flatten_cons, List.filter_append]

/-- Over any feed list, the qualifying list is the threshold filter of the
processed list. -/
theorem scan_relevant_filter (lib : PyLib) (gen : String → Except String String)
    (fetch : String → Except String (List Entry)) (now : Int)
    (feeds : List String) :
    (scanFeedsList lib gen fetch now feeds).relevant
      = (scanFeedsList lib gen fetch now feeds).allProcessed.filter qualifies := by
  rw [scanFeedsList_char]
  simp only [feedOutOf]
  rw [← flatten_filter, List.map_map]
  congr 1
  exact List.map_congr_left fun u _ => processFeed_rel_filter lib gen now u (fetch u)

/-- A log line of one configured source's processing appears in the scan
log. -/
theorem mem_scan_log_of_mem_feed (lib : PyLib) (gen : String → Except String String)
    (fetch : String → Except String (List Entry)) (now : Int)
    (feeds : List String) (url : String) (ev : LogEvent)
    (hu : url ∈ feeds) (hev : ev ∈ (feedOutOf lib gen fetch now url).log) :
    ev ∈ (scanFeedsList lib gen fetch now feeds).log := by
  rw [scanFeedsList_char]
  simp only
  apply List.mem_append.2
  left
  exact List.mem_flatten.2
    ⟨_, List.mem_map_of_mem (fun u => (feedOutOf lib gen fetch now u).log) hu, hev⟩

/-- A successfully fetched source always logs its total entry count. -/
theorem foundEntries_mem_processFeed (lib : PyLib)
    (gen : String → Except String String) (now : Int) (url : String)
    (entries : List Entry) :
    LogEvent.foundEntries url entries.length
      ∈ (processFeed lib gen now url (.ok entries)).log := by
  simp only [processFeed]
  cases hmr : (if 0 < entries.length then mostRecentOf lib entries else some none) with
  | none => simp
  | some mr => simp

/-- A source that survives the debug block logs its per-feed processed
count (or the no-recent-articles notice when it is zero). -/
theorem countLog_mem_processFeed (lib : PyLib)
    (gen : String → Except String String) (now : Int) (url : String)
    (entries : List Entry) (mr : Option Int)
    (hmr : (if 0 < entries.length then mostRecentOf lib entries else some none)
      = some mr) :
    (if (recentOnly lib now entries).length = 0 then LogEvent.noRecent url
     else LogEvent.processedCount url (recentOnly lib now entries).length)
      ∈ (processFeed lib gen now url (.ok entries)).log := by
  simp only [processFeed]
  rw [hmr]
  simp only
  unfold entryLoop
  rw [foldl_entryStep_char]
  simp only [List.mem_append]
  by_cases h : (recentOnly lib now entries).length = 0 <;> simp [h]

/-- Collaborator stub for the concrete scan runs: every structured date
converts to timestamp 0, markup is left unchanged. -/
def libW : PyLib :=
  PyLib.mk (fun _ _ => none) (fun _ => none) (fun _ => some 0) id

/-- A concrete structured publication date. -/
def tW : StructTime := StructTime.mk 2025 1 1 0 0 0

/-- A recent entry carrying only a title and a structured date. -/
def entryW (t : String) : Entry :=
  Entry.mk (some t) none none none none (some tW) none

/-- A generation stub scoring the four example articles 3, 8, 7 and 10. -/
def genW : String → Except String String := fun p =>
  if p = buildPrompt "a1" "" then .ok "RELEVANCE: 3"
  else if p = buildPrompt "a2" "" then .ok "RELEVANCE: 8"
  else if p = buildPrompt "a3" "" then .ok "RELEVANCE: 7"
  else .ok "RELEVANCE: 10"

/-- A fetch stub: the first configured feed returns the four example
entries, the others are empty. -/
def fetchW : String → Except String (List Entry) := fun u =>
  if u = "https://workspaceupdates.googleblog.com/feeds/posts/default" then
    .ok [entryW "a1", entryW "a2", entryW "a3", entryW "a4"]
  else .ok []

set_option maxRecDepth 40000 in
/-- C2: a scored article lands in the qualifying subset iff its relevance
score strictly exceeds 7; concretely, a feed whose articles score
3, 8, 7 and 10 yields the qualifying subset scoring exactly 8 and 10. -/
theorem digest_threshold_spec :
    (∀ lib gen fetch now a,
      a ∈ (scan_feeds lib gen fetch now).relevant ↔
        a ∈ (scan_feeds lib gen fetch now).allProcessed ∧ a.relevance > 7) ∧
    (scan_feeds libW genW fetchW 0).allProcessed.map (fun a => a.relevance)
      = [3, 8, 7, 10] ∧
    (scan_feeds libW genW fetchW 0).relevant.map (fun a => a.relevance)
      = [8, 10] := by
  refine ⟨?_, by decide, by decide⟩
  intro lib gen fetch now a
  unfold scan_feeds
  rw [scan_relevant_filter, List.mem_filter]
  unfold qualifies
  simp [decide_eq_true_eq]

set_option maxRecDepth 40000 in
/-- Witness for C2: the article scored 8 is in the qualifying subset. -/
theorem digest_threshold_spec_witness :
    Article.mk "a2" "" 8 ""
        "https://workspaceupdates.googleblog.com/feeds/posts/default"
      ∈ (scan_feeds libW genW fetchW 0).relevant :=
  (digest_threshold_spec.1 libW genW fetchW 0 _).mpr ⟨by decide, by decide⟩

/-- C5: one scan produces both the full processed list and the qualifying
subset (the latter being exactly the threshold filter of the former), and
its log carries, for every successfully fetched source, the count of
entries found, the per-source processed count (or no-recent notice) when
the feed completes, and the final summary counts. -/
theorem scan_outputs_spec (lib : PyLib) (gen : String → Except String String)
    (fetch : String → Except String (List Entry)) (now : Int) :
    (scan_feeds lib gen fetch now).relevant
      = (scan_feeds lib gen fetch now).allProcessed.filter qualifies ∧
    (∀ url entries, url ∈ RSS_FEEDS → fetch url = .ok entries →
      LogEvent.foundEntries url entries.length
        ∈ (scan_feeds lib gen fetch now).log) ∧
    (∀ url entries mr, url ∈ RSS_FEEDS → fetch url = .ok entries →
      (if 0 < entries.length then mostRecentOf lib entries else some none)
        = some mr →
      (if (recentOnly lib now entries).length = 0 then LogEvent.noRecent url
       else LogEvent.processedCount url (recentOnly lib now entries).length)
        ∈ (scan_feeds lib gen fetch now).log) ∧
    LogEvent.summaryLine (scan_feeds lib gen fetch now).allProcessed.length
        (scan_feeds lib gen fetch now).relevant.length
      ∈ (scan_feeds lib gen fetch now).log := by
  refine ⟨scan_relevant_filter lib gen fetch now RSS_FEEDS, ?_, ?_, ?_⟩
  · intro url entries hu hf
    apply mem_scan_log_of_mem_feed lib gen fetch now RSS_FEEDS url _ hu
    unfold feedOutOf
    rw [hf]
    exact foundEntries_mem_processFeed lib gen now url entries
  · intro url entries mr hu hf hmr
    apply mem_scan_log_of_mem_feed lib gen fetch now RSS_FEEDS url _ hu
    unfold feedOutOf
    rw [hf]
    exact countLog_mem_processFeed lib gen now url entries mr hmr
  · unfold scan_feeds
    rw [scanFeedsList_char]
    simp

/-- Witness for C5: with the stub collaborators, the first configured feed
logs its four found entries. -/
theorem scan_outputs_spec_witness :
    LogEvent.foundEntries
        "https://workspaceupdates.googleblog.com/feeds/posts/default" 4
      ∈ (scan_feeds libW genW fetchW 0).log :=
  (scan_outputs_spec libW genW fetchW 0).2.1
    "https://workspaceupdates.googleblog.com/feeds/posts/default"
    [entryW "a1", entryW "a2", entryW "a3", entryW "a4"]
    (by simp [RSS_FEEDS]) rfl

/-- C6: recoverable failures are isolated to their unit of work.  A source
whose fetch fails contributes no articles — the scan over the remaining
sources produces the same processed and qualifying lists — and its error is
only logged; a generation failure for one article is caught and becomes
score 0 with empty summary instead of propagating. -/
theorem error_isolation_spec (lib : PyLib) (gen : String → Except String String)
    (fetch : String → Except String (List Entry)) (now : Int)
    (a b : List String) (url msg : String) :
    (fetch url = .error msg →
      (scanFeedsList lib gen fetch now (a ++ url :: b)).allProcessed
        = (scanFeedsList lib gen fetch now (a ++ b)).allProcessed ∧
      (scanFeedsList lib gen fetch now (a ++ url :: b)).relevant
        = (scanFeedsList lib gen fetch now (a ++ b)).relevant ∧
      LogEvent.feedError url msg
        ∈ (scanFeedsList lib gen fetch now (a ++ url :: b)).log) ∧
    (∀ title snippet, gen (buildPrompt title snippet) = .error msg →
      (rate_and_summarize gen title snippet).1 = (0, "")) := by
  constructor
  · intro hf
    have hout : feedOutOf lib gen fetch now url
        = FeedOut.mk [] [] [.scanningFeed url, .feedError url msg] := by
      unfold feedOutOf
      rw [hf]
      rfl
    refine ⟨?_, ?_, ?_⟩
    · rw [scanFeedsList_char, scanFeedsList_char]
      simp only [List.map_append, List.map_cons, List.flatten_append,
        List.flatten_cons, hout]
      simp
    · rw [scanFeedsList_char, scanFeedsList_char]
      simp only [List.map_append, List.map_cons, List.flatten_append,
        List.flatten_cons, hout]
      simp
    · apply mem_scan_log_of_mem_feed lib gen fetch now _ url _
        (List.mem_append_right a (List.mem_cons_self url b))
      rw [hout]
      simp
  · intro title snippet hg
    unfold rate_and_summarize
    rw [hg]

/-- A fetch stub failing on one source, for the C6 witness. -/
def fetchBad : String → Except String (List Entry) := fun u =>
  if u = "bad" then .error "boom" else .ok []

/-- Witness for C6: the failing source's error is logged while the scan of
the remaining source list is unaffected. -/
theorem error_isolation_spec_witness :
    LogEvent.feedError "bad" "boom"
      ∈ (scanFeedsList libW genW fetchBad 0 ["bad", "good"]).log :=
  ((error_isolation_spec libW genW fetchBad 0 [] ["good"] "bad" "boom").1 rfl).2.2

/-- C8: the reporter attempts delivery iff email is configured and at least
one qualifying article exists; otherwise it returns normally after a
log-only notice.  When an attempted delivery fails, the failure is logged
and re-raised; and a delivery failure on a non-empty qualifying list with
email configured is the only way the whole run can end in an error. -/
theorem send_email_report_spec (lib : PyLib) (gen : String → Except String String)
    (fetch : String → Except String (List Entry))
    (smtp : String → Except String Unit) (emailEnabled : Bool)
    (emailTo : String) (now : Int) (articles : List Article) :
    (send_email_report emailEnabled smtp emailTo articles).attempted
      = (emailEnabled && !articles.isEmpty) ∧
    ((send_email_report emailEnabled smtp emailTo articles).attempted = false →
      (send_email_report emailEnabled smtp emailTo articles).outcome = .ok () ∧
      ((send_email_report emailEnabled smtp emailTo articles).log
          = [.emailSkipNotConfigured] ∨
       (send_email_report emailEnabled smtp emailTo articles).log
          = [.emailSkipNoArticles])) ∧
    (∀ msg, emailEnabled = true → articles ≠ [] →
      smtp (emailHtmlBody articles) = .error msg →
      (send_email_report emailEnabled smtp emailTo articles).outcome
        = .error msg ∧
      LogEvent.emailError msg
        ∈ (send_email_report emailEnabled smtp emailTo articles).log) ∧
    (∀ msg, mainRun lib gen fetch smtp emailEnabled emailTo now = .error msg ↔
      emailEnabled = true ∧ (scan_feeds lib gen fetch now).relevant ≠ [] ∧
      smtp (emailHtmlBody (scan_feeds lib gen fetch now).relevant)
        = .error msg) := by
  refine ⟨?_, ?_, ?_, ?_⟩
  · unfold send_email_report
    cases emailEnabled with
    | false => simp
    | true =>
      by_cases ha : articles.isEmpty
      · simp [ha]
      · simp only [ha, Bool.true_eq_false, if_false, if_neg]
        cases hs : smtp (emailHtmlBody articles) <;> simp [ha, hs]
  · intro h
    unfold send_email_report at h ⊢
    cases emailEnabled with
    | false => simp
    | true =>
      by_cases ha : articles.isEmpty
      · simp [ha]
      · exfalso
        simp only [Bool.true_eq_false, if_false] at h
        rw [if_neg (by simp [ha])] at h
        revert h
        cases hs : smtp (emailHtmlBody articles) <;> simp [hs]
  · intro msg he hne hs
    subst he
    unfold send_email_report
    rw [if_neg (by simp), if_neg (by simp [hne]), hs]
    simp
  · intro msg
    unfold mainRun
    by_cases hrel : (scan_feeds lib gen fetch now).relevant.isEmpty
    · simp only [hrel, if_true]
      constructor
      · intro h; cases h
      · rintro ⟨he, hne, hs⟩
        exact absurd (List.isEmpty_iff.mp hrel) hne
    · simp only [hrel, Bool.false_eq_true, if_false]
      have hne : (scan_feeds lib gen fetch now).relevant ≠ [] := by
        simpa using hrel
      unfold send_email_report
      cases emailEnabled with
      | false => simp
      | true =>
        rw [if_neg (by simp), if_neg (by simp [hne])]
        cases hs : smtp (emailHtmlBody (scan_feeds lib gen fetch now).relevant) with
        | ok _ => simp [hne]
        | error m => simp [hne]

/-- An SMTP stub that always fails, for the C8 witness. -/
def smtpBad : String → Except String Unit := fun _ => .error "auth failed"

/-- A qualifying article for the C8 witness. -/
def artW : Article := Article.mk "t" "l" 9 "s" "src"

/-- Witness for C8: with email configured, one qualifying article and a
failing SMTP submission, the reporter re-raises the failure after logging
it. -/
theorem send_email_report_spec_witness :
    (send_email_report true smtpBad "me" [artW]).outcome
      = .error "auth failed" ∧
    LogEvent.emailError "auth failed"
      ∈ (send_email_report true smtpBad "me" [artW]).log :=
  (send_email_report_spec libW genW fetchW smtpBad true "me" 0 [artW]).2.2.1
    "auth failed" rfl (by simp) rfl

end ChikuyaScanner
